import Mathlib

/-!
Shallow embedding of the dvr recording scheduler from this repository
(src/main.py, src/db.py, src/rec.py, src/notify.py, src/models.py,
src/defaults.py), restricted to the control loop
`check_plan_and_start_stop_recording_if_needed` and its collaborators.

Conventions of the embedding:

* Wall-clock time is an `Int` of Unix seconds, matching the Python
  `int(datetime.now().timestamp())`; one single `now` is used for all of
  its occurrences inside one tick (the real code re-reads the clock a few
  microseconds apart inside a query, which is immaterial here).
* Python exceptions are modelled with `Except PyError` inside helpers and
  with an `err : Option PyError` field on the result of a whole tick;
  side effects performed before a raise persist, as in Python.
* ORM `Event` rows carry their joined `filmweb` and `channel`
  relationship objects inline (db.py's queries inner-join on foreign keys
  that are total, and main.py reads `event.filmweb` / `event.channel`
  through the relationship attributes).
* `DvrDB.marked_as_being_recorded` in db.py annotates its first parameter
  as an `Event`, but Python does not enforce the annotation and one call
  site in main.py passes `event.id` (an `int`).  The dynamic argument is
  therefore modelled as `PyObj`, either an event reference or an integer;
  setting the `recorder` attribute on an integer raises `AttributeError`.
-/

namespace Dvr

/-- Python exception kinds reachable in the modelled code paths. -/
inductive PyError
  | attributeError
  | indexError
  | oSError
  | connectionError
deriving DecidableEq

/-- A Filmweb row (db.py's `FilmwebEntry` usage; cf. models.py `Filmweb`):
id, title, year, ignored flag and recorded flag. -/
structure FilmwebEntry where
  id : Int
  title : String
  year : Int
  ignored : Bool
  recorded : Bool
deriving DecidableEq

/-- A channel row: id, display name, source key (models.py `Channel`). -/
structure Channel where
  id : Int
  name : String
  key : String
deriving DecidableEq

/-- An event row as used by db.py: identity, joined relationship objects,
start/stop Unix timestamps, the `to_be_recorded` scheduling flag and the
`recorder` assignment (`-1` = unassigned, `>= 0` = adapter index). -/
structure Event where
  id : Int
  filmweb : FilmwebEntry
  channel : Channel
  start_ts : Int
  stop_ts : Int
  to_be_recorded : Bool
  recorder : Int
deriving DecidableEq

/-- The persisted store: the event table (channels and filmweb rows are
carried inline on events). -/
structure DvrDB where
  events : List Event
deriving DecidableEq

/-- Ambient configuration and environment outcomes for one tick:
the clock, the `SHIFT_BEFORE` / `SHIFT_AFTER` minute settings from
defaults.py, and oracles for the outcome of external effects
(process spawning, whether a spawned process dies when terminated,
whether the Pushover HTTP request succeeds). -/
structure Env where
  now : Int
  shift_before : Int
  shift_after : Int
  spawn_ok : Bool
  new_proc_stops : Bool
  pushover_ok : Bool
deriving DecidableEq

/-- db.py line 31: `REC_SHIFT_BEFORE = 60 * SHIFT_BEFORE` (seconds). -/
def REC_SHIFT_BEFORE (env : Env) : Int := 60 * env.shift_before

/-- db.py line 32: `REC_SHIFT_AFTER = 60 * SHIFT_AFTER` (seconds). -/
def REC_SHIFT_AFTER (env : Env) : Int := 60 * env.shift_after

/-- db.py `DvrDB.get_event_to_start_recording`: select events with
`to_be_recorded == True`, `recorder == -1`,
`start_ts >= now - REC_SHIFT_BEFORE` and `start_ts < now + 10`.
The query has no `order_by`; the filter preserves table order. -/
def get_event_to_start_recording (env : Env) (db : DvrDB) : List Event :=
  db.events.filter fun e =>
    e.to_be_recorded && decide (e.recorder = -1)
      && decide (e.start_ts ≥ env.now - REC_SHIFT_BEFORE env)
      && decide (e.start_ts < env.now + 10)

/-- db.py `DvrDB.get_event_to_stop_recording`: select events with
`to_be_recorded == True`, `recorder >= 0` and
`stop_ts <= now - REC_SHIFT_AFTER`.  No `order_by`. -/
def get_event_to_stop_recording (env : Env) (db : DvrDB) : List Event :=
  db.events.filter fun e =>
    e.to_be_recorded && decide (e.recorder ≥ 0)
      && decide (e.stop_ts ≤ env.now - REC_SHIFT_AFTER env)

/-- The dynamically-typed first argument of `marked_as_being_recorded`:
main.py line 116 passes the `Event` ORM object (modelled by its row id),
while main.py line 97 passes `event.id`, a plain `int`. -/
inductive PyObj
  | eventRef (id : Int)
  | intVal (n : Int)
deriving DecidableEq

/-- Field update performed by db.py `marked_as_being_recorded` on an event
row: `recorder = -1 if rec_number is None else rec_number` and
`to_be_recorded = not rec_number is None`. -/
def setRecorderFields (rec_number : Option Int) (ev : Event) : Event :=
  { ev with
    recorder := match rec_number with | none => -1 | some k => k
    to_be_recorded := rec_number.isSome }

/-- db.py `DvrDB.marked_as_being_recorded(event, rec_number=-1)`:
sets `event.recorder` and `event.to_be_recorded` and commits.  When the
caller passed an `int` instead of an `Event` (main.py line 97), the
attribute assignment `event.recorder = ...` raises `AttributeError` and
nothing is persisted. -/
def DvrDB.marked_as_being_recorded (db : DvrDB) (event : PyObj)
    (rec_number : Option Int) : Except PyError DvrDB :=
  match event with
  | .intVal _ => .error .attributeError
  | .eventRef eid =>
      .ok { db with
            events := db.events.map fun ev =>
              if ev.id = eid then setRecorderFields rec_number ev else ev }

/-- main.py line 98 calls `dvrdb.marked_as_recorded(...)`, but class
`DvrDB` in db.py defines no such method: the attribute lookup raises
`AttributeError`. -/
def DvrDB.marked_as_recorded (_db : DvrDB) (_filmweb_id : Int) :
    Except PyError DvrDB :=
  .error .attributeError

/-- The external capture process handle (rec.py `self.proc`): whether the
OS still reports it alive, plus an environment oracle saying whether it
exits when asked to terminate within the grace/kill sequence. -/
structure Proc where
  alive : Bool
  stops_when_asked : Bool
deriving DecidableEq

/-- rec.py `Recorder`: one tuner, an adapter index and an optional
process handle. -/
structure Recorder where
  adapter : Int
  proc : Option Proc
deriving DecidableEq

/-- rec.py `Recorder.busy`: `self.proc.is_running() if self.proc else
False`. -/
def Recorder.busy (r : Recorder) : Bool :=
  match r.proc with
  | some p => p.alive
  | none => false

/-- rec.py `Recorder.stop_rec`: returns `False` immediately when not
busy; otherwise waits / kills / terminates and returns
`not self.proc.is_running()`.  Whether the process actually dies is the
handle's `stops_when_asked` oracle; on a failed stop the handle stays
alive (the tuner is left presumed recording). -/
def Recorder.stop_rec (r : Recorder) : Bool × Recorder :=
  if r.busy then
    match r.proc with
    | some p =>
        (p.stops_when_asked, { r with proc := some { p with alive := !p.stops_when_asked } })
    | none => (false, r)
  else (false, r)

/-- rec.py `Recorder.start_rec`: spawns `psutil.Popen(...)` (which either
raises `OSError` or returns a handle, never `None`), stores it in
`self.proc` and returns `self.proc is not None`. -/
def Recorder.start_rec (env : Env) (r : Recorder) (_channel : String)
    (_recfile : String) : Except PyError (Bool × Recorder) :=
  if env.spawn_ok then
    let r' : Recorder :=
      { r with proc := some { alive := true, stops_when_asked := env.new_proc_stops } }
    .ok (r'.proc.isSome, r')
  else .error .oSError

/-- notify.py `notify`: builds a Pushover HTTPS request and reads the
response.  There is no `try`/`except` anywhere in the function, so a
network failure raises out of `notify` to the caller; the function never
touches the repository. -/
def notify (env : Env) (_epg_event : Event) : Except PyError Unit :=
  if env.pushover_ok then .ok () else .error .connectionError

/-- models.py regex `[^a-zA-Z\d]` applied to the lowercased string with
replacement by an underscore. -/
def pySafe (s : String) : String :=
  s.toLower.map fun c => if c.isAlphanum then c else '_'

/-- models.py `Filmweb.safe_title`. -/
def FilmwebEntry.safe_title (f : FilmwebEntry) : String := pySafe f.title

/-- models.py `Filmweb.rec_file_name`. -/
def FilmwebEntry.rec_file_name (f : FilmwebEntry) : String :=
  f.safe_title ++ "_" ++ toString f.year ++ ".mts"

/-- models.py `Channel.safe_name`. -/
def Channel.safe_name (c : Channel) : String := pySafe c.name

/-- defaults.py `REC_DIR` default value. -/
def REC_DIR : String := "./rec"

/-- The output path main.py line 114 hands to `start_rec`. -/
def recfile_for (e : Event) : String :=
  REC_DIR ++ "/" ++ e.channel.safe_name ++ "_" ++ e.filmweb.rec_file_name

/-- Python list indexing `recorders[i]`: a negative index counts from the
end; an index still out of range raises `IndexError`. -/
def pyIndex (l : List Recorder) (i : Int) : Except PyError Recorder :=
  let j : Int := if i < 0 then i + l.length else i
  if 0 ≤ j then
    match l.get? j.toNat with
    | some r => .ok r
    | none => .error .indexError
  else .error .indexError

/-- Write-back of an in-place mutation of `recorders[i]` (the element
aliased by a successful `pyIndex`). -/
def updateAt (l : List Recorder) (i : Int) (r : Recorder) : List Recorder :=
  let j : Int := if i < 0 then i + l.length else i
  l.set j.toNat r

/-- main.py `get_free_recorder`: the first recorder with `busy == false`,
or none.  The Python function returns the list element itself; the model
also returns its position so the mutated tuner can be written back. -/
def get_free_recorder (rs : List Recorder) : Option (Nat × Recorder) :=
  rs.enum.find? fun p => !p.2.busy

/-- The mutable module-level state of main.py: the database and the
`recorders` list. -/
structure SysState where
  db : DvrDB
  recorders : List Recorder
deriving DecidableEq

/-- The stop loop of `check_plan_and_start_stop_recording_if_needed`
(main.py lines 94-99).  For each event: index `recorders` with
`event.recorder`, call `stop_rec`; on `True` call
`marked_as_being_recorded(event.id)` (note: the `int`, not the row),
then `marked_as_recorded`, then `notify`.  Any exception propagates,
keeping the effects already performed.  Returns the state, the
propagated exception if any, and the ids of events notified in order. -/
def stopPhase (env : Env) : List Event → SysState → SysState × Option PyError × List Int
  | [], st => (st, none, [])
  | e :: rest, st =>
    match pyIndex st.recorders e.recorder with
    | .error err => (st, some err, [])
    | .ok r =>
      let st1 : SysState :=
        { st with recorders := updateAt st.recorders e.recorder (r.stop_rec).2 }
      if (r.stop_rec).1 then
        match st1.db.marked_as_being_recorded (.intVal e.id) (some (-1)) with
        | .error err => (st1, some err, [])
        | .ok db1 =>
          match DvrDB.marked_as_recorded db1 e.filmweb.id with
          | .error err => ({ st1 with db := db1 }, some err, [])
          | .ok db2 =>
            match notify env e with
            | .error err => ({ st1 with db := db2 }, some err, [])
            | .ok _ =>
              match stopPhase env rest { st1 with db := db2 } with
              | (st', err, ids) => (st', err, e.id :: ids)
      else
        stopPhase env rest st1

/-- The start loop of `check_plan_and_start_stop_recording_if_needed`
(main.py lines 101-117).  For each event: take the first free recorder;
if none, log and return (abandoning the rest of the batch, no raise);
otherwise call `start_rec` (an `OSError` from spawning propagates) and,
when it returns `True`, persist the assignment with
`marked_as_being_recorded(event, dvb.adapter)`.  Returns the state, the
propagated exception if any, and the ids of events whose recording was
started, in order. -/
def startPhase (env : Env) : List Event → SysState → SysState × Option PyError × List Int
  | [], st => (st, none, [])
  | e :: rest, st =>
    match get_free_recorder st.recorders with
    | none => (st, none, [])
    | some (i, dvb) =>
      match dvb.start_rec env e.channel.name (recfile_for e) with
      | .error err => (st, some err, [])
      | .ok (started, dvb') =>
        let st1 : SysState := { st with recorders := st.recorders.set i dvb' }
        if started then
          match st1.db.marked_as_being_recorded (.eventRef e.id) (some dvb.adapter) with
          | .error err => (st1, some err, [])
          | .ok db1 =>
            match startPhase env rest { st1 with db := db1 } with
            | (st', err, ids) => (st', err, e.id :: ids)
        else
          startPhase env rest st1

/-- Result of one tick: final state, the exception that escaped the tick
if any, ids of notified events, ids of events whose recording started. -/
structure TickResult where
  st : SysState
  err : Option PyError
  notified : List Int
  started : List Int
deriving DecidableEq

/-- main.py `check_plan_and_start_stop_recording_if_needed`: query both
due lists (both against the state at entry), return at once if both are
empty, otherwise run the stop loop and then, if no exception escaped it,
the start loop. -/
def tick (env : Env) (st : SysState) : TickResult :=
  let events2start := get_event_to_start_recording env st.db
  let events2stop := get_event_to_stop_recording env st.db
  if events2start.length == 0 && events2stop.length == 0 then
    ⟨st, none, [], []⟩
  else
    match stopPhase env events2stop st with
    | (st1, some err, notified) => ⟨st1, some err, notified, []⟩
    | (st1, none, notified) =>
      match startPhase env events2start st1 with
      | (st2, err2, started) => ⟨st2, err2, notified, started⟩

/-- Look up an event row by id (first match), as the ORM session does. -/
def rowById (db : DvrDB) (eid : Int) : Option Event :=
  db.events.find? fun ev => ev.id == eid

/-- The ordering the natural-language description attributes to the
due-to-start query.  Modelled from the spec's words: "by content title
ascending then start time ascending". -/
def spec_ordered_by_title_then_start (l : List Event) : Prop :=
  List.Pairwise
    (fun a b => a.filmweb.title < b.filmweb.title ∨
      (a.filmweb.title = b.filmweb.title ∧ a.start_ts ≤ b.start_ts)) l

/-! ### Concrete fixtures used by the scenario theorems -/

/-- A Filmweb row fixture. -/
def fwA : FilmwebEntry := ⟨1, "alpha", 2001, false, false⟩

/-- A Filmweb row fixture. -/
def fwB : FilmwebEntry := ⟨2, "beta", 2002, false, false⟩

/-- A Filmweb row fixture. -/
def fwC : FilmwebEntry := ⟨3, "gamma", 2003, false, false⟩

/-- A channel fixture. -/
def chA : Channel := ⟨1, "TVP1", "tvp1"⟩

/-- Environment fixture with the defaults.py settings
(`SHIFT_BEFORE = 8`, `SHIFT_AFTER = 10`) and all external effects
succeeding. -/
def envStd : Env := ⟨100000, 8, 10, true, true, true⟩

/-- Event fixture due to stop at `envStd.now`: scheduled, assigned to
adapter 0, `stop_ts = now - 1000 ≤ now - 600`. -/
def evStop : Event := ⟨1, fwA, chA, 90000, 99000, true, 0⟩

/-- Event fixture due to start at `envStd.now`: scheduled, unassigned,
`start_ts = now`. -/
def evStart : Event := ⟨2, fwB, chA, 100000, 107200, true, -1⟩

/-- A second event fixture due to start at `envStd.now`. -/
def evStart2 : Event := ⟨3, fwC, chA, 100000, 107200, true, -1⟩

/-- Event fixture due to stop whose `recorder` (1) is out of range for a
single-tuner deployment. -/
def evStopBad : Event := ⟨1, fwA, chA, 90000, 99000, true, 1⟩

/-- Tuner fixture: recording, and its process dies when terminated. -/
def recBusyKillable : Recorder := ⟨0, some ⟨true, true⟩⟩

/-- Tuner fixture: recording, and its process survives termination
(`stop_rec` returns `False`). -/
def recBusyStubborn : Recorder := ⟨0, some ⟨true, false⟩⟩

/-- Tuner fixture: idle. -/
def recFree : Recorder := ⟨0, none⟩

/-! ### Helper lemmas -/

/-- Membership characterization of the due-to-start query. -/
theorem mem_start_query (env : Env) (db : DvrDB) (e : Event) :
    e ∈ get_event_to_start_recording env db ↔
      e ∈ db.events ∧ e.to_be_recorded = true ∧ e.recorder = -1 ∧
        env.now - 60 * env.shift_before ≤ e.start_ts ∧ e.start_ts < env.now + 10 := by
  simp [get_event_to_start_recording, List.mem_filter, REC_SHIFT_BEFORE, ge_iff_le,
    and_assoc]

/-- Membership characterization of the due-to-stop query. -/
theorem mem_stop_query (env : Env) (db : DvrDB) (e : Event) :
    e ∈ get_event_to_stop_recording env db ↔
      e ∈ db.events ∧ e.to_be_recorded = true ∧ 0 ≤ e.recorder ∧
        e.stop_ts ≤ env.now - 60 * env.shift_after := by
  simp [get_event_to_stop_recording, List.mem_filter, REC_SHIFT_AFTER, ge_iff_le,
    and_assoc]

/-- `setRecorderFields` does not change the row id. -/
@[simp] theorem setRecorderFields_id (rn : Option Int) (ev : Event) :
    (setRecorderFields rn ev).id = ev.id := rfl

/-- `updateAt` preserves the length of the recorder list. -/
@[simp] theorem updateAt_length (l : List Recorder) (i : Int) (r : Recorder) :
    (updateAt l i r).length = l.length := by
  simp [updateAt]

/-- A nonnegative in-range Python index never raises. -/
theorem pyIndex_ok_of_lt (l : List Recorder) (i : Int) (h0 : 0 ≤ i)
    (h1 : i < (l.length : Int)) : ∃ r, pyIndex l i = .ok r := by
  have hneg : ¬ i < 0 := by omega
  have hlt : i.toNat < l.length := by omega
  refine ⟨l.get ⟨i.toNat, hlt⟩, ?_⟩
  simp only [pyIndex, if_neg hneg, if_pos h0, List.get?_eq_get hlt]

/-- The stop loop never commits anything to the repository and never
reaches the notifier: its first repository call,
`marked_as_being_recorded(event.id)`, raises `AttributeError` whenever a
stop succeeds, aborting the loop before any commit or notification. -/
theorem stopPhase_db_notified (env : Env) :
    ∀ (l : List Event) (st : SysState),
      (stopPhase env l st).1.db = st.db ∧ (stopPhase env l st).2.2 = [] := by
  intro l
  induction l with
  | nil => intro st; exact ⟨rfl, rfl⟩
  | cons e rest ih =>
    intro st
    rw [stopPhase]
    cases hpi : pyIndex st.recorders e.recorder with
    | error err => exact ⟨rfl, rfl⟩
    | ok r =>
      dsimp only
      cases hs : (r.stop_rec).1 with
      | true => exact ⟨rfl, rfl⟩
      | false => exact ih _

/-- The stop loop can only escape with `AttributeError` when every
due-to-stop event's recorder index is in range. -/
theorem stopPhase_err_cases (env : Env) :
    ∀ (l : List Event) (st : SysState),
      (∀ e ∈ l, 0 ≤ e.recorder ∧ e.recorder < (st.recorders.length : Int)) →
      (stopPhase env l st).2.1 = none ∨
        (stopPhase env l st).2.1 = some PyError.attributeError := by
  intro l
  induction l with
  | nil => intro st _; exact Or.inl rfl
  | cons e rest ih =>
    intro st hb
    obtain ⟨h0, h1⟩ := hb e (List.mem_cons_self e rest)
    obtain ⟨r, hr⟩ := pyIndex_ok_of_lt st.recorders e.recorder h0 h1
    rw [stopPhase, hr]
    dsimp only
    cases hs : (r.stop_rec).1 with
    | true => exact Or.inr rfl
    | false =>
      refine ih _ fun e' he' => ?_
      have := hb e' (List.mem_cons_of_mem e he')
      simpa using this

/-- The start loop propagates only spawn failures (`OSError`). -/
theorem startPhase_err_cases (env : Env) :
    ∀ (l : List Event) (st : SysState),
      (startPhase env l st).2.1 = none ∨
        (startPhase env l st).2.1 = some PyError.oSError := by
  intro l
  induction l with
  | nil => intro st; exact Or.inl rfl
  | cons e rest ih =>
    intro st
    rw [startPhase]
    cases hg : get_free_recorder st.recorders with
    | none => exact Or.inl rfl
    | some p =>
      obtain ⟨i, dvb⟩ := p
      dsimp only
      cases hsr : dvb.start_rec env e.channel.name (recfile_for e) with
      | error err =>
        cases henv : env.spawn_ok with
        | true => rw [Recorder.start_rec, if_pos henv] at hsr; cases hsr
        | false =>
          rw [Recorder.start_rec, if_neg (by simp [henv])] at hsr
          cases hsr
          exact Or.inr rfl
      | ok pr =>
        obtain ⟨started, dvb'⟩ := pr
        dsimp only
        cases started with
        | true => exact ih _
        | false => exact ih _

/-- Events started by the start loop, in order, form a sublist of the
due-to-start list it was given. -/
theorem startPhase_started_sublist (env : Env) :
    ∀ (l : List Event) (st : SysState),
      List.Sublist (startPhase env l st).2.2 (l.map Event.id) := by
  intro l
  induction l with
  | nil => intro st; exact List.nil_sublist _
  | cons e rest ih =>
    intro st
    rw [startPhase]
    cases hg : get_free_recorder st.recorders with
    | none => exact List.nil_sublist _
    | some p =>
      obtain ⟨i, dvb⟩ := p
      dsimp only
      cases hsr : dvb.start_rec env e.channel.name (recfile_for e) with
      | error err => exact List.nil_sublist _
      | ok pr =>
        obtain ⟨started, dvb'⟩ := pr
        dsimp only
        cases started with
        | true => exact List.Sublist.cons₂ e.id (ih _)
        | false => exact (ih _).trans (List.sublist_cons_self e.id (rest.map Event.id))

/-- Updating one row by id leaves lookups of any other id unchanged. -/
theorem find?_map_update (l : List Event) (eid x : Int) (rn : Option Int)
    (h : eid ≠ x) :
    (l.map fun ev => if ev.id = eid then setRecorderFields rn ev else ev).find?
        (fun ev => ev.id == x) = l.find? (fun ev => ev.id == x) := by
  induction l with
  | nil => rfl
  | cons a l ih =>
    simp only [List.map_cons, List.find?]
    by_cases ha : a.id = eid
    · rw [if_pos ha]
      have hax : (a.id == x) = false := by
        simp only [beq_eq_false_iff_ne, ne_eq]
        omega
      have hax' : ((setRecorderFields rn a).id == x) = false := by
        simpa [setRecorderFields_id] using hax
      rw [hax, hax']
      exact ih
    · rw [if_neg ha]
      cases hax : (a.id == x) with
      | true => rfl
      | false => exact ih

/-- The start loop leaves every row whose id is not in its batch
untouched. -/
theorem startPhase_rowById (env : Env) :
    ∀ (l : List Event) (st : SysState) (x : Int),
      (∀ e' ∈ l, e'.id ≠ x) →
      rowById (startPhase env l st).1.db x = rowById st.db x := by
  intro l
  induction l with
  | nil => intro st x _; rfl
  | cons e rest ih =>
    intro st x hx
    rw [startPhase]
    cases hg : get_free_recorder st.recorders with
    | none => rfl
    | some p =>
      obtain ⟨i, dvb⟩ := p
      dsimp only
      cases hsr : dvb.start_rec env e.channel.name (recfile_for e) with
      | error err => rfl
      | ok pr =>
        obtain ⟨started, dvb'⟩ := pr
        dsimp only
        cases started with
        | true =>
          have hne : e.id ≠ x := hx e (List.mem_cons_self e rest)
          have hrest := ih
              ⟨⟨(st.db.events.map fun ev =>
                  if ev.id = e.id then setRecorderFields (some dvb.adapter) ev else ev)⟩,
                st.recorders.set i dvb'⟩ x
              (fun e' he' => hx e' (List.mem_cons_of_mem e he'))
          have hupd := find?_map_update st.db.events e.id x (some dvb.adapter) hne
          exact hrest.trans hupd
        | false =>
          exact ih _ x fun e' he' => hx e' (List.mem_cons_of_mem e he')

/-- With distinct row ids, looking an event's id up returns it. -/
theorem find?_id_of_nodup (l : List Event) (e : Event)
    (hnd : (l.map Event.id).Nodup) (he : e ∈ l) :
    l.find? (fun ev => ev.id == e.id) = some e := by
  induction l with
  | nil => cases he
  | cons a l ih =>
    simp only [List.map_cons, List.nodup_cons] at hnd
    rcases List.mem_cons.mp he with rfl | hmem
    · simp [List.find?]
    · have hne : (a.id == e.id) = false := by
        rw [beq_eq_false_iff_ne]
        intro hx
        exact hnd.1 (hx ▸ List.mem_map_of_mem Event.id hmem)
      simp only [List.find?, hne]
      exact ih hnd.2 hmem

/-- `rowById` form of `find?_id_of_nodup`. -/
theorem rowById_of_nodup (db : DvrDB) (e : Event)
    (hnd : (db.events.map Event.id).Nodup) (he : e ∈ db.events) :
    rowById db e.id = some e :=
  find?_id_of_nodup db.events e hnd he

/-- The due-to-start query ignores the notification environment. -/
theorem start_query_pushover (env : Env) (b : Bool) (db : DvrDB) :
    get_event_to_start_recording { env with pushover_ok := b } db =
      get_event_to_start_recording env db := rfl

/-- The due-to-stop query ignores the notification environment. -/
theorem stop_query_pushover (env : Env) (b : Bool) (db : DvrDB) :
    get_event_to_stop_recording { env with pushover_ok := b } db =
      get_event_to_stop_recording env db := rfl

/-- Spawning ignores the notification environment. -/
theorem start_rec_pushover (env : Env) (b : Bool) (r : Recorder) (c f : String) :
    Recorder.start_rec { env with pushover_ok := b } r c f =
      Recorder.start_rec env r c f := rfl

/-- The stop loop's outcome does not depend on whether the Pushover
request would succeed (its only use of the network, `notify`, sits after
a call that always raises first). -/
theorem stopPhase_pushover (env : Env) (b : Bool) :
    ∀ (l : List Event) (st : SysState),
      stopPhase { env with pushover_ok := b } l st = stopPhase env l st := by
  intro l
  induction l with
  | nil => intro st; rfl
  | cons e rest ih =>
    intro st
    rw [stopPhase, stopPhase]
    cases hpi : pyIndex st.recorders e.recorder with
    | error err => rfl
    | ok r =>
      dsimp only
      cases hs : (r.stop_rec).1 with
      | true => rfl
      | false => exact ih _

/-- The start loop never consults the notification environment. -/
theorem startPhase_pushover (env : Env) (b : Bool) :
    ∀ (l : List Event) (st : SysState),
      startPhase { env with pushover_ok := b } l st = startPhase env l st := by
  intro l
  induction l with
  | nil => intro st; rfl
  | cons e rest ih =>
    intro st
    rw [startPhase, startPhase]
    cases hg : get_free_recorder st.recorders with
    | none => rfl
    | some p =>
      obtain ⟨i, dvb⟩ := p
      dsimp only
      rw [start_rec_pushover]
      cases hsr : dvb.start_rec env e.channel.name (recfile_for e) with
      | error err => rfl
      | ok pr =>
        obtain ⟨started, dvb'⟩ := pr
        dsimp only
        cases started with
        | true => simp only [ih]
        | false => exact ih _

/-! ### Claims -/

/-- C1: for every event and time `now`, the due-to-start query returns
the event iff `to_be_recorded = true`, `recorder = -1`,
`start_ts ≥ now - 60 * SHIFT_BEFORE` and `start_ts < now + 10`. -/
theorem c1_due_to_start_iff (env : Env) (db : DvrDB) (e : Event) :
    e ∈ get_event_to_start_recording env db ↔
      e ∈ db.events ∧ e.to_be_recorded = true ∧ e.recorder = -1 ∧
        e.start_ts ≥ env.now - 60 * env.shift_before ∧ e.start_ts < env.now + 10 :=
  mem_start_query env db e

/-- C2: for every event and time `now`, the due-to-stop query returns
the event iff `to_be_recorded = true`, `recorder ≥ 0` and
`stop_ts ≤ now - 60 * SHIFT_AFTER`. -/
theorem c2_due_to_stop_iff (env : Env) (db : DvrDB) (e : Event) :
    e ∈ get_event_to_stop_recording env db ↔
      e ∈ db.events ∧ e.to_be_recorded = true ∧ e.recorder ≥ 0 ∧
        e.stop_ts ≤ env.now - 60 * env.shift_after :=
  mem_stop_query env db e

/-- C3: the claim says a successfully stopped event gets `recorder = -1`
persisted, its content marked recorded, and one notification.  The code
instead passes `event.id` (an `int`) to `marked_as_being_recorded`, which
raises `AttributeError` (and the next call, `marked_as_recorded`, does
not even exist on `DvrDB`): at this failing input the tick aborts with
`AttributeError`, the event row keeps `recorder = 0` and
`recorded = false`, and the notifier is never invoked. -/
theorem c3_stop_success_path_raises :
    (tick envStd ⟨⟨[evStop]⟩, [recBusyKillable]⟩).err = some PyError.attributeError ∧
    rowById (tick envStd ⟨⟨[evStop]⟩, [recBusyKillable]⟩).st.db 1 = some evStop ∧
    evStop.recorder = 0 ∧ evStop.filmweb.recorded = false ∧
    (tick envStd ⟨⟨[evStop]⟩, [recBusyKillable]⟩).notified = [] := by
  decide

/-- C5: running the tick twice at one `now` is claimed to equal running
it once.  At this input the first tick raises `AttributeError` in the
stop loop (leaving the repository unchanged but killing the tuner
process), and the second tick, finding the stop now a no-op, proceeds to
the start loop and assigns a recorder — so two runs change the
repository while one run does not. -/
theorem c5_tick_not_idempotent :
    (tick envStd ⟨⟨[evStop, evStart]⟩, [recBusyKillable]⟩).st.db =
      DvrDB.mk [evStop, evStart] ∧
    (tick envStd (tick envStd ⟨⟨[evStop, evStart]⟩, [recBusyKillable]⟩).st).st.db ≠
      DvrDB.mk [evStop, evStart] := by
  decide

/-- C7 counterexample: at this repository the due-to-start query returns
the events in table order `[beta, alpha]`, which is not ordered by
content title ascending (the query in db.py has no `order_by` at all). -/
theorem c7_start_query_not_sorted :
    get_event_to_start_recording envStd ⟨[evStart2, evStart]⟩ = [evStart2, evStart] ∧
    ¬ spec_ordered_by_title_then_start
        (get_event_to_start_recording envStd ⟨[evStart2, evStart]⟩) := by
  constructor
  · decide
  · intro h
    rw [show get_event_to_start_recording envStd ⟨[evStart2, evStart]⟩
          = [evStart2, evStart] by decide] at h
    rcases List.pairwise_cons.mp h with ⟨h1, -⟩
    rcases h1 evStart (by simp) with hlt | ⟨heq, -⟩
    · rw [String.lt_iff_toList_lt] at hlt
      revert hlt
      decide
    · revert heq
      decide

/-- C8 counterexample: `notify` contains no exception handling, so when
the Pushover request fails the exception propagates to the caller rather
than being logged and swallowed. -/
theorem c8_notify_error_returned :
    notify { envStd with pushover_ok := false } evStop =
      Except.error PyError.connectionError := rfl

/-- C4: when no tuner is free for a due-to-start event, the whole
remaining batch is abandoned and the loop returns without raising; and
in the concrete two-events-one-tuner scenario exactly the first event
gets its recorder set while the second keeps `recorder = -1` and the
tick reports no exception. -/
theorem c4_no_free_tuner_aborts_batch :
    (∀ (env : Env) (e : Event) (rest : List Event) (st : SysState),
        get_free_recorder st.recorders = none →
        startPhase env (e :: rest) st = (st, none, [])) ∧
    ((tick envStd ⟨⟨[evStart, evStart2]⟩, [recFree]⟩).err = none ∧
      rowById (tick envStd ⟨⟨[evStart, evStart2]⟩, [recFree]⟩).st.db 2 =
        some { evStart with recorder := 0 } ∧
      rowById (tick envStd ⟨⟨[evStart, evStart2]⟩, [recFree]⟩).st.db 3 =
        some evStart2) := by
  constructor
  · intro env e rest st h
    rw [startPhase, h]
  · decide

/-- Witness for C4: a state whose only tuner is busy satisfies the
no-free-tuner hypothesis, and there the start loop is a no-op. -/
theorem c4_no_free_tuner_aborts_batch_witness :
    startPhase envStd [evStart] ⟨⟨[evStart]⟩, [recBusyKillable]⟩ =
      (⟨⟨[evStart]⟩, [recBusyKillable]⟩, none, []) :=
  c4_no_free_tuner_aborts_batch.1 envStd evStart []
    ⟨⟨[evStart]⟩, [recBusyKillable]⟩ (by decide)

/-- C6: a due-to-stop event whose tuner `stop_rec` returns false keeps
its persisted row exactly as it was (in particular `recorder` and
`to_be_recorded`) and is never notified during the tick. -/
theorem c6_stop_false_leaves_event_untouched (env : Env) (st : SysState)
    (e : Event) (r : Recorder)
    (hnd : (st.db.events.map Event.id).Nodup)
    (he : e ∈ get_event_to_stop_recording env st.db)
    (hr : pyIndex st.recorders e.recorder = Except.ok r)
    (hfalse : (r.stop_rec).1 = false) :
    rowById (tick env st).st.db e.id = some e ∧
      e.id ∉ (tick env st).notified := by
  obtain ⟨hmem, hsched, hrec0, hstop⟩ := (mem_stop_query env st.db e).mp he
  have hcond : (((get_event_to_start_recording env st.db).length == 0) &&
      ((get_event_to_stop_recording env st.db).length == 0)) = false := by
    have h2 : (get_event_to_stop_recording env st.db).length ≠ 0 := by
      simpa [List.length_eq_zero] using List.ne_nil_of_mem he
    simp [h2]
  have hdbn := stopPhase_db_notified env (get_event_to_stop_recording env st.db) st
  rw [tick]
  rcases hsp : stopPhase env (get_event_to_stop_recording env st.db) st
    with ⟨st1, err, ids⟩
  rw [hsp] at hdbn
  obtain ⟨hdb1, hids⟩ := hdbn
  simp only [hcond, Bool.false_eq_true, if_false, hsp]
  have hrow : rowById st.db e.id = some e := rowById_of_nodup st.db e hnd hmem
  cases err with
  | some er =>
    dsimp only
    subst hids
    exact ⟨by rw [hdb1, hrow], by simp⟩
  | none =>
    dsimp only
    have hstart_ne : ∀ s ∈ get_event_to_start_recording env st.db, s.id ≠ e.id := by
      intro s hsmem hid
      obtain ⟨hsm, -, hsrec, -⟩ := (mem_start_query env st.db s).mp hsmem
      have : s = e := List.inj_on_of_nodup_map hnd hsm hmem hid
      rw [this] at hsrec
      omega
    have hpres := startPhase_rowById env (get_event_to_start_recording env st.db)
      st1 e.id hstart_ne
    rcases hstp : startPhase env (get_event_to_start_recording env st.db) st1
      with ⟨st2, err2, ids2⟩
    rw [hstp] at hpres
    subst hids
    exact ⟨by rw [hpres, hdb1, hrow], by simp⟩

/-- Witness for C6: a scheduled event recorded on tuner 0 whose process
survives termination. -/
theorem c6_stop_false_leaves_event_untouched_witness :
    rowById (tick envStd ⟨⟨[evStop]⟩, [recBusyStubborn]⟩).st.db evStop.id =
        some evStop ∧
      evStop.id ∉ (tick envStd ⟨⟨[evStop]⟩, [recBusyStubborn]⟩).notified :=
  c6_stop_false_leaves_event_untouched envStd ⟨⟨[evStop]⟩, [recBusyStubborn]⟩
    evStop recBusyStubborn (by decide) (by decide) rfl (by decide)

/-- C7 amended: the start loop does process events in the order the
repository query returned them (the ids it starts form an in-order
sublist of the query result), but the query itself imposes no ordering:
it is an order-preserving filter of the underlying event table. -/
theorem c7_processing_follows_repository_order (env : Env) (st : SysState) :
    List.Sublist (tick env st).started
        ((get_event_to_start_recording env st.db).map Event.id) ∧
    List.Sublist (get_event_to_start_recording env st.db) st.db.events := by
  constructor
  · rw [tick]
    by_cases hc : (((get_event_to_start_recording env st.db).length == 0) &&
        ((get_event_to_stop_recording env st.db).length == 0)) = true
    · simp only [hc, if_true]
      exact List.nil_sublist _
    · simp only [Bool.not_eq_true] at hc
      simp only [hc, Bool.false_eq_true, if_false]
      rcases hsp : stopPhase env (get_event_to_stop_recording env st.db) st
        with ⟨st1, err, ids⟩
      cases err with
      | some er => exact List.nil_sublist _
      | none =>
        dsimp only
        exact startPhase_started_sublist env
          (get_event_to_start_recording env st.db) st1
  · exact List.filter_sublist st.db.events

/-- C8 amended: a failure inside `notify` is not caught there — it
propagates to the caller — while the notification outcome can never
influence the repository or tuner state of a tick. -/
theorem c8_notify_propagates_state_unaffected :
    (∀ (env : Env) (e : Event), env.pushover_ok = false →
        notify env e = Except.error PyError.connectionError) ∧
    (∀ (env : Env) (st : SysState) (b : Bool),
        tick { env with pushover_ok := b } st = tick env st) := by
  constructor
  · intro env e h
    simp [notify, h]
  · intro env st b
    simp only [tick, start_query_pushover, stop_query_pushover,
      stopPhase_pushover, startPhase_pushover]

/-- Witness for C8: concrete failing notification and a concrete tick
equality across notification environments. -/
theorem c8_notify_propagates_state_unaffected_witness :
    notify { envStd with pushover_ok := false } evStart =
        Except.error PyError.connectionError ∧
      tick { envStd with pushover_ok := false } ⟨⟨[evStop]⟩, [recBusyStubborn]⟩ =
        tick envStd ⟨⟨[evStop]⟩, [recBusyStubborn]⟩ :=
  ⟨c8_notify_propagates_state_unaffected.1 { envStd with pushover_ok := false }
      evStart rfl,
    c8_notify_propagates_state_unaffected.2 envStd ⟨⟨[evStop]⟩, [recBusyStubborn]⟩
      false⟩

/-- C9: the stop loop indexes the tuner list with the persisted
`recorder` field and no bounds check: if every due-to-stop event's
recorder is below the tuner count the tick never reports `IndexError`
(the query already enforces `recorder >= 0`), while a due-to-stop event
with `recorder = 1` against a single tuner makes the tick fail with
`IndexError`. -/
theorem c9_indexing_bounds :
    (∀ (env : Env) (st : SysState),
        (∀ e ∈ get_event_to_stop_recording env st.db,
          e.recorder < (st.recorders.length : Int)) →
        (tick env st).err ≠ some PyError.indexError) ∧
    (tick envStd ⟨⟨[evStopBad]⟩, [recBusyKillable]⟩).err =
      some PyError.indexError := by
  constructor
  · intro env st hb
    rw [tick]
    by_cases hc : (((get_event_to_start_recording env st.db).length == 0) &&
        ((get_event_to_stop_recording env st.db).length == 0)) = true
    · simp [hc]
    · simp only [Bool.not_eq_true] at hc
      simp only [hc, Bool.false_eq_true, if_false]
      have hbounds : ∀ e ∈ get_event_to_stop_recording env st.db,
          0 ≤ e.recorder ∧ e.recorder < (st.recorders.length : Int) := by
        intro e hee
        exact ⟨((mem_stop_query env st.db e).mp hee).2.2.1, hb e hee⟩
      have herr := stopPhase_err_cases env
        (get_event_to_stop_recording env st.db) st hbounds
      rcases hsp : stopPhase env (get_event_to_stop_recording env st.db) st
        with ⟨st1, err, ids⟩
      rw [hsp] at herr
      cases err with
      | some er =>
        dsimp only
        rcases herr with h | h
        · cases h
        · simp at h
          simp [h]
      | none =>
        dsimp only
        have hserr := startPhase_err_cases env
          (get_event_to_start_recording env st.db) st1
        rcases hstp : startPhase env (get_event_to_start_recording env st.db) st1
          with ⟨st2, err2, ids2⟩
        rw [hstp] at hserr
        rcases hserr with h | h
        · simp at h
          simp [h]
        · simp at h
          simp [h]
  · decide

/-- Witness for C9: a single-tuner state whose only due-to-stop event
has `recorder = 0` is within bounds, so its tick reports no
`IndexError`. -/
theorem c9_indexing_bounds_witness :
    (tick envStd ⟨⟨[evStop]⟩, [recBusyKillable]⟩).err ≠
      some PyError.indexError :=
  c9_indexing_bounds.1 envStd ⟨⟨[evStop]⟩, [recBusyKillable]⟩ (by decide)

/-- C10: on a normal return `start_rec` always reports `True` — its
result is `self.proc is not None` and it has just assigned a freshly
spawned handle to `self.proc` — and a failed spawn raises (`OSError`)
rather than returning `False`. -/
theorem c10_start_rec_never_false (env : Env) (r : Recorder) (ch f : String) :
    (∀ (b : Bool) (r' : Recorder),
        Recorder.start_rec env r ch f = Except.ok (b, r') → b = true) ∧
    (env.spawn_ok = false →
      Recorder.start_rec env r ch f = Except.error PyError.oSError) := by
  constructor
  · intro b r' h
    rw [Recorder.start_rec] at h
    cases henv : env.spawn_ok with
    | true =>
      rw [if_pos henv] at h
      cases h
      rfl
    | false =>
      rw [if_neg (by simp [henv])] at h
      cases h
  · intro henv
    rw [Recorder.start_rec, if_neg (by simp [henv])]

/-- Witness for C10: concrete successful and failing spawns. -/
theorem c10_start_rec_never_false_witness :
    ((true : Bool) = true) ∧
      Recorder.start_rec { envStd with spawn_ok := false } recFree "TVP1" "f" =
        Except.error PyError.oSError :=
  ⟨(c10_start_rec_never_false envStd recFree "TVP1" "f").1 true recBusyKillable
      rfl,
    (c10_start_rec_never_false { envStd with spawn_ok := false } recFree "TVP1"
      "f").2 rfl⟩

end Dvr
